import Mathlib

/-!
# The signal source of libioutils (`io_src_sig.c`) and the pidwatch creation contract

A shallow embedding of `libioutils/src/io_src_sig.c`.

* A `sigset_t` is the finite set of the signal numbers it holds.
* The process is a `World`: its signal mask, `errno`, and the ordered list of
  the calls the code made to `sigaddset`, `signalfd`, `read` and the user
  callback.
* Everything the code cannot decide by itself is an answer of the `Env`:
  which numbers `sigaddset` rejects, which signals the kernel refuses to
  block, which signals the C library keeps for itself, what `signalfd` and
  `read` answer, what `io_mon_has_error` computes and what the user callbacks
  do.
* A pointer to a record is an `Option` (`none` is `NULL`); a function that
  writes through the pointer returns the new content.
* A result `none` of a function stands for undefined behaviour of the C code
  (a missing variadic argument, a call through a null function pointer).
-/

namespace Fusion

/-! ## Constants -/

/-- Invalid argument, `errno.h`. -/
def EINVAL : Int := 22

/-- Input/output error, `errno.h`. -/
def EIO : Int := 5

/-- The `how` of `sigprocmask` that adds the set to the mask. -/
def SIG_BLOCK : Int := 0

/-- The `how` of `sigprocmask` that removes the set from the mask. -/
def SIG_UNBLOCK : Int := 1

/-- The `how` of `sigprocmask` that replaces the mask by the set. -/
def SIG_SETMASK : Int := 2

/-- Flag of `signalfd`: non-blocking descriptor (octal 04000). -/
def SFD_NONBLOCK : Nat := 2048

/-- Flag of `signalfd`: close-on-exec descriptor (octal 02000000). -/
def SFD_CLOEXEC : Nat := 524288

/-- Modelled from the spec: the constant `IO_IN` of `io_src.h`, which is not
among the sources; it is the "Readable" interest of a source, a single
non-zero bit. -/
def IO_IN : Nat := 1

/-- Modelled from the spec: the value of `sizeof(sig->si)`; the header
`io_src_sig.h` that declares `si` is not among the sources. The "fixed-size
signal-info record" a signal-file-descriptor delivers is a
`struct signalfd_siginfo`, 128 bytes. -/
def SI_SIZE : Nat := 128

/-! ## Data model -/

/-- A signal set, `sigset_t`. -/
abbrev sigset_t := Finset Int

/-- The node of the doubly-linked list, `struct rs_node` of `rs_node.h`;
a pointer is an address, 0 being `NULL`. -/
structure rs_node where
  next : Nat
  prev : Nat
deriving DecidableEq, Repr

/-- A pointer to a readiness callback of a source (`io_src_cb_t *`). -/
inductive io_src_cb_t where
  | NULL
  | sig_cb
  | other (addr : Nat)
deriving DecidableEq, Repr

/-- A pointer to a cleanup callback of a source (`io_src_clean_t *`). -/
inductive io_src_clean_t where
  | NULL
  | sig_clean
  | other (addr : Nat)
deriving DecidableEq, Repr

/-- Modelled from the spec: `struct io_src` of `io_src.h`, which is not among
the sources. The spec's source record: a file descriptor, a readiness-interest
mask, a readiness callback, a cleanup callback, the last-observed readiness
bitmap and the intrusive list node. -/
structure io_src where
  fd : Int
  type : Nat
  events : Nat
  cb : io_src_cb_t
  clean : io_src_clean_t
  node : rs_node
deriving DecidableEq, Repr

/-- A pointer to a user callback (`io_sig_cb_t *`): `none` is `NULL`,
`some i` is the user function number `i` of the environment. -/
abbrev io_sig_cb_t := Option Nat

/-- Modelled from the spec: `struct io_src_sig` of `io_src_sig.h`, which is
not among the sources. The spec's signal source state, under the field names
`io_src_sig.c` uses: the embedded source record `src`, the active signal set
`mask`, the pre-existing signal set captured at init `old_mask`, the bytes of
the latest signal record `si`, and the user's callback `cb`. -/
structure io_src_sig where
  src : io_src
  mask : sigset_t
  old_mask : sigset_t
  si : List Nat
  cb : io_sig_cb_t

/-- The fields of a signal source, in order. -/
def io_src_sig.fields (s : io_src_sig) :
    io_src × sigset_t × sigset_t × List Nat × io_sig_cb_t :=
  (s.src, s.mask, s.old_mask, s.si, s.cb)

instance : DecidableEq io_src_sig := fun a b =>
  decidable_of_iff (a.fields = b.fields)
    ⟨fun h => by
      cases a; cases b
      simp only [io_src_sig.fields, Prod.mk.injEq] at h
      simp [h],
     fun h => by rw [h]⟩

/-- A zero-filled source record. -/
def io_src.zero : io_src :=
  { fd := 0, type := 0, events := 0, cb := io_src_cb_t.NULL,
    clean := io_src_clean_t.NULL, node := { next := 0, prev := 0 } }

/-- A zero-filled signal source: what `memset(sig, 0, sizeof(*sig))` leaves. -/
def io_src_sig.zero : io_src_sig :=
  { src := io_src.zero, mask := ∅, old_mask := ∅,
    si := List.replicate SI_SIZE 0, cb := none }

/-- A call the code makes out of `io_src_sig.c`. -/
inductive Event where
  | sigaddset (signo : Int)
  | signalfd (fd : Int) (mask : sigset_t) (flags : Nat)
  | read (fd : Int) (count : Nat)
  | user_cb (cb : Nat) (arg : io_src_sig)

/-- The kind of a call and its arguments, in a common shape. -/
def Event.fields : Event → Nat × Int × sigset_t × Nat × Option io_src_sig
  | Event.sigaddset signo => (0, signo, ∅, 0, none)
  | Event.signalfd fd mask flags => (1, fd, mask, flags, none)
  | Event.read fd count => (2, fd, ∅, count, none)
  | Event.user_cb cb arg => (3, 0, ∅, cb, some arg)

instance : DecidableEq Event := fun a b =>
  decidable_of_iff (a.fields = b.fields)
    ⟨fun h => by
      cases a <;> cases b <;> simp [Event.fields] at h <;> simp [h],
     fun h => by rw [h]⟩

/-- The part of the process a user callback may change. -/
structure Proc where
  sigmask : sigset_t
  errno : Int

instance : DecidableEq Proc := fun a b =>
  decidable_of_iff ((a.sigmask, a.errno) = (b.sigmask, b.errno))
    ⟨fun h => by
      cases a; cases b
      simp only [Prod.mk.injEq] at h
      simp [h],
     fun h => by rw [h]⟩

/-- The process: its state and the calls made so far, oldest first. -/
structure World where
  proc : Proc
  calls : List Event

instance : DecidableEq World := fun a b =>
  decidable_of_iff ((a.proc, a.calls) = (b.proc, b.calls))
    ⟨fun h => by
      cases a; cases b
      simp only [Prod.mk.injEq] at h
      simp [h],
     fun h => by rw [h]⟩

/-- The answers of the C library, of the kernel and of the user code. -/
structure Env where
  /-- The error number with which `sigaddset` rejects the number; `none` when it accepts it. -/
  sigaddset_err : Int → Option ℕ+
  /-- The signals the kernel never blocks (`SIGKILL` and `SIGSTOP` on Linux). -/
  unblockable : sigset_t
  /-- The signals the C library keeps for itself and takes out of the set it
  is given in `sigprocmask` (32 and 33 in glibc). -/
  reserved : sigset_t
  /-- The answer of `signalfd`: an error number or a new descriptor. -/
  signalfd_res : Except ℕ+ Nat
  /-- The answer of `read` on the signal descriptor: an error number or the bytes. -/
  read_res : Except ℕ+ (List Nat)
  /-- The test of `io_mon.h` on a readiness bitmap, which is not among the sources. -/
  io_mon_has_error : Nat → Bool
  /-- The user functions: the return value, and what they leave in the source and the process. -/
  user : Nat → io_src_sig → Proc → Int × io_src_sig × Proc
  /-- The library's `sigaddset` rejects the signals the library keeps for itself. -/
  reserved_rejected : ∀ s ∈ reserved, sigaddset_err s ≠ none
  /-- The descriptor read is a signalfd: a read that succeeds gives whole
  signal-info records, one when one is asked for; it never comes short. -/
  read_whole : ∀ d, read_res = Except.ok d → d.length = SI_SIZE

/-- Append a call to the record of calls. -/
def World.log (w : World) (e : Event) : World :=
  { w with calls := w.calls ++ [e] }

/-- Set `errno`. -/
def World.set_errno (w : World) (e : Int) : World :=
  { w with proc := { w.proc with errno := e } }

/-- Set the process signal mask. -/
def World.set_sigmask (w : World) (m : sigset_t) : World :=
  { w with proc := { w.proc with sigmask := m } }

/-! ## The calls out of the file -/

/-- The call `sigemptyset(m)`: the set is emptied. -/
def sigemptyset (_m : sigset_t) : sigset_t := ∅

/-- The call `sigaddset(m, signo)`: a rejected number gives -1 and sets
`errno`, an accepted one is added to the set and gives 0. -/
def sigaddset (env : Env) (m : sigset_t) (signo : Int) (w : World) :
    Int × sigset_t × World :=
  let w1 := w.log (Event.sigaddset signo)
  match env.sigaddset_err signo with
  | some e => (-1, m, w1.set_errno ((e : Nat) : Int))
  | none => (0, insert signo m, w1)

/-- The call `sigprocmask(how, set, oldset)` of the C library,
`sigprocmask(2)`: the mask in force is stored in `oldset` unless that pointer
is `NULL`. With a non-null `set`, the library first takes the signals it
keeps for itself out of `set`; then the mask becomes its union with that set
(`SIG_BLOCK`), its difference with that set (`SIG_UNBLOCK`) or that set
(`SIG_SETMASK`), and the kernel silently leaves out the signals it never
blocks. An unknown `how` gives -1 with `errno` set to `EINVAL` and changes
nothing. -/
def sigprocmask (env : Env) (how : Int) (set : Option sigset_t)
    (oldset : Option sigset_t) (w : World) : Int × Option sigset_t × World :=
  let cur := w.proc.sigmask
  match set with
  | none => (0, oldset.map (fun _ => cur), w)
  | some s =>
    let s1 := s \ env.reserved
    if how = SIG_BLOCK then
      (0, oldset.map (fun _ => cur), w.set_sigmask ((cur ∪ s1) \ env.unblockable))
    else if how = SIG_UNBLOCK then
      (0, oldset.map (fun _ => cur), w.set_sigmask (cur \ s1))
    else if how = SIG_SETMASK then
      (0, oldset.map (fun _ => cur), w.set_sigmask (s1 \ env.unblockable))
    else
      (-1, oldset, w.set_errno EINVAL)

/-- The call `signalfd(fd, mask, flags)`: -1 with `errno` set, or the new
descriptor. -/
def signalfd (env : Env) (fd : Int) (mask : sigset_t) (flags : Nat) (w : World) :
    Int × World :=
  let w1 := w.log (Event.signalfd fd mask flags)
  match env.signalfd_res with
  | Except.error e => (-1, w1.set_errno ((e : Nat) : Int))
  | Except.ok n => ((n : Int), w1)

/-- Modelled from the spec: `io_read` of `io_utils.h`, which is not among the
sources; the spec's "read ... from the fd" with the outcomes "short read or
error". It is `read(2)` on `count` bytes: a failure gives -1, sets `errno`
and leaves the buffer; otherwise the `n ≤ count` bytes obtained replace the
first `n` bytes of the buffer, `n` is returned and `errno` is not written. -/
def io_read (env : Env) (fd : Int) (buf : List Nat) (count : Nat) (w : World) :
    Int × List Nat × World :=
  let w1 := w.log (Event.read fd count)
  match env.read_res with
  | Except.error e => (-1, buf, w1.set_errno ((e : Nat) : Int))
  | Except.ok d =>
    let got := d.take count
    ((got.length : Int), got ++ (buf.take count).drop got.length, w1)

/-- Modelled from the spec: `io_src_init` of `io_src.c`, which is not among
the sources. "An initializer that takes (fd, interest, on_ready, on_clean) and
zero-fills the embedded record. Constraints checked: fd ≥ 0, interest
non-empty, on_ready non-null. A null on_clean is tolerated." An invalid
argument is "returned as a negative error code to caller; no state
mutation". -/
def io_src_init (src : Option io_src) (fd : Int) (type : Nat) (cb : io_src_cb_t)
    (clean : io_src_clean_t) : Int × Option io_src :=
  match src with
  | none => (- EINVAL, none)
  | some s =>
    if fd < 0 ∨ type = 0 ∨ cb = io_src_cb_t.NULL then (- EINVAL, some s)
    else (0, some { io_src.zero with fd := fd, type := type, cb := cb, clean := clean })

/-! ## `io_src_sig.c` -/

/-- The source callback `sig_cb`: reads the signal and notifies the client.
The argument is the signal source that contains the source record. -/
def sig_cb (env : Env) (sig : io_src_sig) (w : World) :
    Option (Int × io_src_sig × World) :=
  if env.io_mon_has_error sig.src.events then some (- EIO, sig, w)
  else
    match io_read env sig.src.fd sig.si SI_SIZE w with
    | (ret, si, w1) =>
      let sig1 := { sig with si := si }
      if (SI_SIZE : Int) ≠ ret then some (- w1.proc.errno, sig1, w1)
      else
        match sig1.cb with
        | none => none
        | some f =>
          let w2 := w1.log (Event.user_cb f sig1)
          match env.user f sig1 w2.proc with
          | (r, sig2, p) => some (r, sig2, { w2 with proc := p })

/-- The cleanup callback `sig_clean`, called when the source is removed. The
argument is the pointer to the source record, seen as its container. -/
def sig_clean (env : Env) (src : Option io_src_sig) (w : World) :
    Option io_src_sig × World :=
  match src with
  | none => (none, w)
  | some sig =>
    match sigprocmask env SIG_SETMASK (some sig.old_mask) none w with
    | (_, _, w1) =>
      let sig1 := { sig with mask := sigemptyset sig.mask }
      let sig2 := { sig1 with old_mask := sigemptyset sig1.old_mask }
      let sig3 := { sig2 with cb := none }
      (some { sig3 with si := List.replicate SI_SIZE 0 }, w1)

/-- The loop of `build_sig_mask`: `signo` is the number in hand, `args` the
variadic arguments not read yet. Reading an argument that was not passed is
undefined. -/
def build_sig_mask_loop (env : Env) (m : sigset_t) (signo : Int) (args : List Int)
    (w : World) : Option (Int × sigset_t × World) :=
  if signo = 0 then some (0, m, w)
  else
    match sigaddset env m signo w with
    | (ret, m1, w1) =>
      if ret = -1 then some (- w1.proc.errno, m1, w1)
      else
        match args with
        | [] => none
        | next :: rest => build_sig_mask_loop env m1 next rest w1

/-- The function `build_sig_mask`: builds the signal mask with a list of
signal numbers, the first being already read. -/
def build_sig_mask (env : Env) (m : sigset_t) (args : List Int) (signo : Int)
    (w : World) : Option (Int × sigset_t × World) :=
  build_sig_mask_loop env (sigemptyset m) signo args w

/-- The function `sig_init_args_are_invalid`: non-zero if at least one
argument is invalid. -/
def sig_init_args_are_invalid (sig : Option io_src_sig) (cb : io_sig_cb_t)
    (signo : Int) : Int :=
  if sig = none ∨ cb = none ∨ signo = 0 then 1 else 0

/-- The function `io_src_sig_init(sig, cb, ...)`; `va` is the list of the
variadic arguments. The result is the return value, the content of `*sig`
and the process. -/
def io_src_sig_init (env : Env) (sig : Option io_src_sig) (cb : io_sig_cb_t)
    (va : List Int) (w : World) : Option (Int × Option io_src_sig × World) :=
  match va with
  | [] => none
  | signo :: args =>
    if sig_init_args_are_invalid sig cb signo ≠ 0 then some (- EINVAL, sig, w)
    else
      let s0 := io_src_sig.zero
      match build_sig_mask env s0.mask args signo w with
      | none => none
      | some (ret, m, w1) =>
        let s1 := { s0 with mask := m }
        if 0 > ret then some (ret, some s1, w1)
        else
          match sigprocmask env SIG_BLOCK (some m) (some s1.old_mask) w1 with
          | (ret2, old, w2) =>
            let s2 := { s1 with old_mask := old.getD s1.old_mask }
            if -1 = ret2 then some (- w2.proc.errno, some s2, w2)
            else
              match signalfd env (-1) m (SFD_NONBLOCK ||| SFD_CLOEXEC) w2 with
              | (fd, w3) =>
                if -1 = fd then
                  let ret3 := - w3.proc.errno
                  match sig_clean env (some s2) w3 with
                  | (s3, w4) => some (ret3, s3, w4)
                else
                  let s3 := { s2 with cb := cb }
                  match io_src_init (some s3.src) fd IO_IN io_src_cb_t.sig_cb
                      io_src_clean_t.sig_clean with
                  | (ret4, src) => some (ret4, some { s3 with src := src.getD s3.src }, w3)

/-- The listed signals of a call: the variadic arguments before the first 0. -/
def listed (va : List Int) : List Int :=
  va.takeWhile (fun s => s ≠ 0)

/-- The source record `io_src_init` leaves in a signal source whose
`signalfd` gave descriptor `n`. -/
def sig_src (n : Nat) : io_src :=
  { io_src.zero with fd := (n : Int), type := IO_IN, cb := io_src_cb_t.sig_cb,
                     clean := io_src_clean_t.sig_clean }

/-! ## A Linux environment, for concrete runs -/

/-- The answer of glibc's `sigaddset`: `EINVAL` (22) for a number outside
1..64 and for the two numbers the library keeps for itself, 32 and 33. -/
def linux_sigaddset_err (signo : Int) : Option ℕ+ :=
  if signo ≤ 0 ∨ 65 ≤ signo ∨ signo = 32 ∨ signo = 33 then some 22 else none

/-- The bytes `d` as one signal-info record: cut, or filled with zeros, to
`SI_SIZE` bytes. -/
def whole_record (d : List Nat) : List Nat :=
  (d ++ List.replicate SI_SIZE 0).take SI_SIZE

/-- A Linux process with glibc in which `signalfd` answers `sfd`, the `read`
fails with the error number of `rd` or gives the bytes of `rd` as one whole
record, the error bits of a bitmap are `EPOLLERR` and `EPOLLHUP` (8 and 16),
the kernel never blocks `SIGKILL` (9) and `SIGSTOP` (19), the library keeps
the signals 32 and 33 for itself, and every user function returns its own
number and changes nothing. -/
def linux (sfd : Except ℕ+ Nat) (rd : Except ℕ+ (List Nat)) : Env :=
  { sigaddset_err := linux_sigaddset_err
    unblockable := {9, 19}
    reserved := {32, 33}
    signalfd_res := sfd
    read_res := rd.map whole_record
    io_mon_has_error := fun ev => ev &&& 24 != 0
    user := fun i sig p => ((i : Int), sig, p)
    reserved_rejected := by decide
    read_whole := by
      intro d hd
      cases rd with
      | error e => simp [Except.map] at hd
      | ok b =>
        simp only [Except.map, Except.ok.injEq] at hd
        subst hd
        simp [whole_record] }

/-- A process with the given mask, `errno` 0 and no call made yet. -/
def World.start (m : sigset_t) : World :=
  { proc := { sigmask := m, errno := 0 }, calls := [] }

/-- The process after `io_src_sig_init` for the signals 10 and 12 under the
mask that blocks signal 2. -/
def World.armed : World :=
  { proc := { sigmask := {2, 12, 10}, errno := 0 }
    calls := [Event.sigaddset 10, Event.sigaddset 12,
              Event.signalfd (-1) {12, 10} (SFD_NONBLOCK ||| SFD_CLOEXEC)] }

/-- The process after an `io_src_sig_init` for the signals 10 and 12 under
the mask that blocks signal 2, when `signalfd` has failed with error 24. -/
def World.unwound : World :=
  { proc := { sigmask := {2}, errno := 24 }
    calls := [Event.sigaddset 10, Event.sigaddset 12,
              Event.signalfd (-1) {12, 10} (SFD_NONBLOCK ||| SFD_CLOEXEC)] }

/-- An initialised signal source on descriptor 3 for the signals 10 and 12,
with user function 4 and the given observed events. -/
def armed (events : Nat) : io_src_sig :=
  { src := { io_src.zero with fd := 3, type := IO_IN, events := events,
                              cb := io_src_cb_t.sig_cb, clean := io_src_clean_t.sig_clean }
    mask := {12, 10}
    old_mask := {2}
    si := List.replicate SI_SIZE 0
    cb := some 4 }

/-! ## The creation of a process watch (`pidwatch_create`) -/

/-- No such process, `errno.h`. -/
def ESRCH : Int := 3

/-- Flag of `socket`: close-on-exec descriptor (octal 02000000). -/
def SOCK_CLOEXEC : Nat := 524288

/-- Flag of `socket`: non-blocking descriptor (octal 04000). -/
def SOCK_NONBLOCK : Nat := 2048

/-- The 32 bits of a C `int`, in two's complement. -/
def int_bits (x : Int) : Nat :=
  (x % 2 ^ 32).toNat

/-- Modelled from the spec: "flags containing bits outside {close-on-exec,
non-blocking}", part of `pidwatch_create`. -/
def flags_out_of_set (flags : Int) : Bool :=
  int_bits flags ||| (SOCK_CLOEXEC ||| SOCK_NONBLOCK) != SOCK_CLOEXEC ||| SOCK_NONBLOCK

/-- Modelled from the spec: a valid process identifier, part of
`pidwatch_create`: positive and below the system `pid_max`, so that neither
"pid = -63" nor "pid = pid-max" is one. -/
def is_pid_valid (pid_max : Int) (pid : Int) : Bool :=
  decide (0 < pid) && decide (pid < pid_max)

/-- The answers of the kernel to `pidwatch_create`. -/
structure PwEnv where
  /-- The content of `/proc/sys/kernel/pid_max`. -/
  pid_max : Int
  /-- The answer of `socket`: an error number or a new descriptor. -/
  socket_res : Except ℕ+ Nat
  /-- The answer of `bind`: an error number, or `none` on success. -/
  bind_err : Option ℕ+
  /-- The process is alive and not a zombie. -/
  alive : Int → Bool

/-- Modelled from the spec: `pidwatch_create` of `pidwatch.c`, which is not
among the sources (only its test `testPIDWATCH_CREATE` is). "Process-exit init
with pid = -63, or pid = pid-max, or flags containing bits outside
{close-on-exec, non-blocking} returns -1." Otherwise the protocol: "Create a
datagram multicast socket", "Bind it", "Verify the target pid is alive and not
a zombie; on failure close the socket and surface the kernel error" ("no such
process"). The result is the return value, the new descriptor or -1, and the
`errno` of a failure. -/
def pidwatch_create (env : PwEnv) (pid : Int) (flags : Int) : Int × Int :=
  if flags_out_of_set flags then (-1, EINVAL)
  else if !is_pid_valid env.pid_max pid then (-1, EINVAL)
  else
    match env.socket_res with
    | Except.error e => (-1, ((e : Nat) : Int))
    | Except.ok fd =>
      match env.bind_err with
      | some e => (-1, ((e : Nat) : Int))
      | none =>
        if env.alive pid then ((fd : Int), 0)
        else (-1, ESRCH)

/-- A Linux kernel with `pid_max` 32768 in which `socket` gives descriptor 3,
`bind` succeeds and only the processes 1 and 4242 are alive. -/
def pw_linux : PwEnv :=
  { pid_max := 32768
    socket_res := Except.ok 3
    bind_err := none
    alive := fun pid => pid = 1 || pid = 4242 }

/-! # Theorems -/

/-! ## Argument validation (`io_src_sig_init`) -/

theorem io_src_sig_init_of_invalid (env : Env) (sig : Option io_src_sig)
    (cb : io_sig_cb_t) (signo : Int) (args : List Int) (w : World)
    (h : sig = none ∨ cb = none ∨ signo = 0) :
    io_src_sig_init env sig cb (signo :: args) w = some (- EINVAL, sig, w) := by
  have hinv : sig_init_args_are_invalid sig cb signo = 1 := by
    unfold sig_init_args_are_invalid
    exact if_pos h
  simp [io_src_sig_init, hinv]

/-- C3: `io_src_sig_init` returns `-EINVAL` whenever the storage slot is
null, the callback is null, or the first signal number of the list is 0, and
then neither the record nor the process (its signal mask included) is
modified and no call is made. -/
theorem io_src_sig_init_invalid_args (env : Env) (sig : Option io_src_sig)
    (cb : io_sig_cb_t) (signo : Int) (args : List Int) (w : World)
    (h : sig = none ∨ cb = none ∨ signo = 0) :
    io_src_sig_init env sig cb (signo :: args) w = some (- EINVAL, sig, w) :=
  io_src_sig_init_of_invalid env sig cb signo args w h

/-- C3, a run: a null slot with a valid callback and the list 10, 0 under the
mask that blocks signal 2. -/
theorem io_src_sig_init_invalid_args_witness :
    ((none : Option io_src_sig) = none ∨ (some 7 : io_sig_cb_t) = none ∨ (10 : Int) = 0) ∧
    io_src_sig_init (linux (Except.ok 3) (Except.ok [])) none (some 7) (10 :: [0])
        (World.start {2})
      = some (- EINVAL, none, World.start {2}) :=
  ⟨Or.inl rfl,
   io_src_sig_init_invalid_args (linux (Except.ok 3) (Except.ok [])) none (some 7) 10 [0]
     (World.start {2}) (Or.inl rfl)⟩

/-! ## Cleanup of a zero-filled record (`sig_clean`) -/

/-- C4, as the code behaves: `sig_clean` on a zero-filled signal source leaves
the record zero-filled and makes no call, but installs the record's captured
mask, which is empty, as the process signal mask. -/
theorem sig_clean_zero (env : Env) (w : World) :
    sig_clean env (some io_src_sig.zero) w
      = (some io_src_sig.zero, w.set_sigmask ∅) := by
  simp [sig_clean, sigprocmask, SIG_SETMASK, SIG_BLOCK, SIG_UNBLOCK, io_src_sig.zero,
    sigemptyset]

/-- C4 fails as stated: with signal 10 blocked beforehand, `sig_clean` on a
zero-filled record does not leave the process signal mask as it was. -/
theorem sig_clean_zero_changes_mask :
    (sig_clean (linux (Except.ok 3) (Except.ok [])) (some io_src_sig.zero)
        (World.start {10})).2.proc.sigmask
      ≠ (World.start {10}).proc.sigmask := by
  decide

/-! ## The readiness adapter (`sig_cb`) -/

/-- C6: when `io_mon_has_error` holds of the observed events, `sig_cb` returns
`-EIO`; the record (its signal-info bytes included) and the process are as
before, and no call is made: no read, no user callback. -/
theorem sig_cb_error_bit (env : Env) (sig : io_src_sig) (w : World)
    (herr : env.io_mon_has_error sig.src.events = true) :
    sig_cb env sig w = some (- EIO, sig, w) := by
  simp [sig_cb, herr]

/-- C6, a run: the events hold `EPOLLERR` (8). -/
theorem sig_cb_error_bit_witness :
    (linux (Except.ok 3) (Except.ok [1, 2, 3])).io_mon_has_error
        ({ io_src_sig.zero with src := { io_src.zero with fd := 3, events := 9 },
                                cb := some 4 } : io_src_sig).src.events = true ∧
    sig_cb (linux (Except.ok 3) (Except.ok [1, 2, 3]))
        { io_src_sig.zero with src := { io_src.zero with fd := 3, events := 9 },
                               cb := some 4 }
        (World.start {10})
      = some (- EIO,
          { io_src_sig.zero with src := { io_src.zero with fd := 3, events := 9 },
                                 cb := some 4 },
          World.start {10}) :=
  ⟨by decide,
   sig_cb_error_bit (linux (Except.ok 3) (Except.ok [1, 2, 3]))
     { io_src_sig.zero with src := { io_src.zero with fd := 3, events := 9 },
                            cb := some 4 }
     (World.start {10}) (by decide)⟩

/-- C7: with no error bit observed and a read that gives one full signal-info
record `d`, `sig_cb` stores `d` in the source, calls the user callback once,
on that source, after the read, and returns what the callback returns; the
source and the process are left as the callback leaves them. -/
theorem sig_cb_full_record (env : Env) (sig : io_src_sig) (w : World) (d : List Nat)
    (f : Nat) (hok : env.io_mon_has_error sig.src.events = false)
    (hread : env.read_res = Except.ok d) (hlen : d.length = SI_SIZE)
    (hcb : sig.cb = some f) :
    sig_cb env sig w
      = some ((env.user f { sig with si := d } w.proc).1,
              (env.user f { sig with si := d } w.proc).2.1,
              { proc := (env.user f { sig with si := d } w.proc).2.2,
                calls := w.calls ++ [Event.read sig.src.fd SI_SIZE,
                                     Event.user_cb f { sig with si := d }] }) := by
  have htake : List.take SI_SIZE d = d := by
    rw [← hlen]; exact List.take_length d
  have hdrop : List.drop SI_SIZE (List.take SI_SIZE sig.si) = [] :=
    List.drop_eq_nil_of_le (by simp [List.length_take])
  simp [sig_cb, hok, io_read, hread, htake, hlen, hcb, World.log, hdrop]

/-- C7, a run: the read gives 128 bytes of value 1 and user function 4
returns 4. -/
theorem sig_cb_full_record_witness :
    ((linux (Except.ok 3) (Except.ok (List.replicate 128 1))).io_mon_has_error
        (armed 1).src.events = false ∧
     (linux (Except.ok 3) (Except.ok (List.replicate 128 1))).read_res
        = Except.ok (List.replicate 128 1) ∧
     (List.replicate 128 1).length = SI_SIZE ∧ (armed 1).cb = some 4) ∧
    sig_cb (linux (Except.ok 3) (Except.ok (List.replicate 128 1))) (armed 1)
        (World.start {2, 10, 12})
      = some (4, { armed 1 with si := List.replicate 128 1 },
              { proc := { sigmask := {2, 10, 12}, errno := 0 },
                calls := [Event.read 3 128,
                          Event.user_cb 4 { armed 1 with si := List.replicate 128 1 }] }) :=
  ⟨⟨by decide, rfl, List.length_replicate 128 1, rfl⟩,
   sig_cb_full_record (linux (Except.ok 3) (Except.ok (List.replicate 128 1))) (armed 1)
     (World.start {2, 10, 12}) (List.replicate 128 1) 4 (by decide) rfl
     (List.length_replicate 128 1) rfl⟩

theorem sigprocmask_block (env : Env) (s o : sigset_t) (w : World) :
    sigprocmask env SIG_BLOCK (some s) (some o) w
      = (0, some w.proc.sigmask,
          w.set_sigmask ((w.proc.sigmask ∪ s \ env.reserved) \ env.unblockable)) := by
  simp [sigprocmask]

theorem sigprocmask_setmask (env : Env) (s : sigset_t) (w : World) :
    sigprocmask env SIG_SETMASK (some s) none w
      = (0, none, w.set_sigmask ((s \ env.reserved) \ env.unblockable)) := by
  simp [sigprocmask, SIG_SETMASK, SIG_BLOCK, SIG_UNBLOCK]

theorem listed_cons_zero (args : List Int) : listed (0 :: args) = [] := by
  simp [listed]

theorem listed_cons_ne (signo : Int) (args : List Int) (h : signo ≠ 0) :
    listed (signo :: args) = signo :: listed args := by
  simp [listed, List.takeWhile_cons, h]

/-- What a finished loop of `build_sig_mask` tells: the process signal mask
is as before; the return value is negative, or it is 0 and the set is the
initial one with the listed signals added. -/
theorem build_sig_mask_loop_inv (env : Env) :
    ∀ (args : List Int) (signo : Int) (m : sigset_t) (w : World) (ret : Int)
      (m' : sigset_t) (w' : World),
      build_sig_mask_loop env m signo args w = some (ret, m', w') →
      w'.proc.sigmask = w.proc.sigmask ∧
        (ret < 0 ∨ (ret = 0 ∧ m' = m ∪ (listed (signo :: args)).toFinset)) := by
  intro args
  induction args with
  | nil =>
    intro signo m w ret m' w' h
    unfold build_sig_mask_loop at h
    by_cases h0 : signo = 0
    · subst h0
      simp at h
      obtain ⟨rfl, rfl, rfl⟩ := h
      simp [listed_cons_zero]
    · simp only [h0, if_false, sigaddset] at h
      cases he : env.sigaddset_err signo with
      | none => simp [he] at h
      | some e =>
        simp [he, World.set_errno, World.log] at h
        obtain ⟨rfl, rfl, rfl⟩ := h
        have := e.pos
        refine ⟨rfl, Or.inl ?_⟩
        simp
  | cons next rest ih =>
    intro signo m w ret m' w' h
    unfold build_sig_mask_loop at h
    by_cases h0 : signo = 0
    · subst h0
      simp at h
      obtain ⟨rfl, rfl, rfl⟩ := h
      simp [listed_cons_zero]
    · simp only [h0, if_false, sigaddset] at h
      cases he : env.sigaddset_err signo with
      | none =>
        simp [he] at h
        obtain ⟨hm, hr⟩ := ih next (insert signo m) (w.log (Event.sigaddset signo)) ret m' w' h
        refine ⟨by simpa [World.log] using hm, ?_⟩
        rcases hr with hr | ⟨hr, hm'⟩
        · exact Or.inl hr
        · refine Or.inr ⟨hr, ?_⟩
          rw [hm', listed_cons_ne signo (next :: rest) h0]
          ext x
          simp
      | some e =>
        simp [he, World.set_errno, World.log] at h
        obtain ⟨rfl, rfl, rfl⟩ := h
        have := e.pos
        refine ⟨rfl, Or.inl ?_⟩
        simp

/-- When the loop of `build_sig_mask` returns 0, `sigaddset` has accepted
every listed signal. -/
theorem build_sig_mask_loop_accepted (env : Env) :
    ∀ (args : List Int) (signo : Int) (m : sigset_t) (w : World)
      (m' : sigset_t) (w' : World),
      build_sig_mask_loop env m signo args w = some (0, m', w') →
      ∀ s ∈ listed (signo :: args), env.sigaddset_err s = none := by
  intro args
  induction args with
  | nil =>
    intro signo m w m' w' h
    unfold build_sig_mask_loop at h
    by_cases h0 : signo = 0
    · subst h0
      simp [listed_cons_zero]
    · simp only [h0, if_false, sigaddset] at h
      cases he : env.sigaddset_err signo with
      | none => simp [he] at h
      | some e =>
        simp [he, World.set_errno, World.log] at h
  | cons next rest ih =>
    intro signo m w m' w' h
    unfold build_sig_mask_loop at h
    by_cases h0 : signo = 0
    · subst h0
      simp [listed_cons_zero]
    · simp only [h0, if_false, sigaddset] at h
      cases he : env.sigaddset_err signo with
      | none =>
        simp [he] at h
        have hrest := ih next (insert signo m) (w.log (Event.sigaddset signo)) m' w' h
        intro s hs
        rw [listed_cons_ne signo (next :: rest) h0] at hs
        rcases List.mem_cons.mp hs with rfl | hs
        · exact he
        · exact hrest s hs
      | some e =>
        simp [he, World.set_errno, World.log] at h

/-- Signals that `sigaddset` accepts are none of those the library keeps for
itself: `sigprocmask` passes their set on whole. -/
theorem accepted_sdiff_reserved (env : Env) (l : List Int)
    (hacc : ∀ s ∈ l, env.sigaddset_err s = none) :
    l.toFinset \ env.reserved = l.toFinset := by
  rw [Finset.sdiff_eq_self_iff_disjoint, Finset.disjoint_left]
  intro a ha hres
  exact env.reserved_rejected a hres (hacc a (List.mem_toFinset.mp ha))

/-! ## Initialisation (`io_src_sig_init`) -/

/-- The call of `io_src_init` made by `io_src_sig_init` cannot fail: the
descriptor comes from a successful `signalfd`, the interest is `IO_IN` and
the callback is `sig_cb`. -/
theorem io_src_init_sig (s : io_src) (n : Nat) :
    io_src_init (some s) (n : Int) IO_IN io_src_cb_t.sig_cb io_src_clean_t.sig_clean
      = (0, some (sig_src n)) := by
  have h : ¬ ((n : Int) < 0) := by omega
  simp [io_src_init, h, IO_IN, sig_src]

/-- Every finished call of `io_src_sig_init` is of one of two kinds. Either
it returns a negative value and the process signal mask is the one before the
call, possibly without the signals the library keeps for itself and those the
kernel never blocks; or it returns 0,
`signalfd` gave a descriptor `n`, the record holds the source on `n`, the
listed signals, the mask before the call and the callback, and the process
signal mask is the union of the mask before the call and the listed signals
without the signals the kernel never blocks. -/
theorem io_src_sig_init_inv (env : Env) (sig : Option io_src_sig) (cb : io_sig_cb_t)
    (va : List Int) (w : World) (ret : Int) (sig' : Option io_src_sig) (w' : World)
    (h : io_src_sig_init env sig cb va w = some (ret, sig', w')) :
    (ret < 0 ∧ (w'.proc.sigmask = w.proc.sigmask ∨
        w'.proc.sigmask = (w.proc.sigmask \ env.reserved) \ env.unblockable)) ∨
    (ret = 0 ∧ ∃ n : Nat, env.signalfd_res = Except.ok n ∧
      sig' = some { src := sig_src n, mask := (listed va).toFinset,
                    old_mask := w.proc.sigmask, si := List.replicate SI_SIZE 0, cb := cb } ∧
      w'.proc.sigmask = (w.proc.sigmask ∪ (listed va).toFinset) \ env.unblockable) := by
  cases va with
  | nil => simp [io_src_sig_init] at h
  | cons signo args =>
    by_cases hv : sig = none ∨ cb = none ∨ signo = 0
    · rw [io_src_sig_init_of_invalid env sig cb signo args w hv] at h
      simp at h
      obtain ⟨rfl, -, rfl⟩ := h
      exact Or.inl ⟨by simp [EINVAL], Or.inl rfl⟩
    · have hinv : sig_init_args_are_invalid sig cb signo = 0 := by
        unfold sig_init_args_are_invalid
        exact if_neg hv
      simp only [io_src_sig_init, hinv, build_sig_mask, sigemptyset] at h
      cases hb : build_sig_mask_loop env ∅ signo args w with
      | none => simp [hb] at h
      | some r =>
        obtain ⟨r1, m, w1⟩ := r
        obtain ⟨hmask, hr⟩ := build_sig_mask_loop_inv env args signo _ w r1 m w1 hb
        simp only [hb, sigprocmask_block, io_src_sig.zero] at h
        rcases hr with hneg | ⟨rfl, hm⟩
        · simp [hneg] at h
          obtain ⟨rfl, -, rfl⟩ := h
          exact Or.inl ⟨hneg, Or.inl hmask⟩
        · have hres := accepted_sdiff_reserved env (listed (signo :: args))
            (build_sig_mask_loop_accepted env args signo _ w m w1 hb)
          simp only [Finset.empty_union] at hm
          subst hm
          rw [hres] at h
          cases hfd : env.signalfd_res with
          | error e =>
            simp [signalfd, hfd, sig_clean, sigprocmask_setmask, World.set_sigmask,
              World.set_errno, World.log] at h
            obtain ⟨rfl, -, rfl⟩ := h
            have := e.pos
            refine Or.inl ⟨by simp, Or.inr ?_⟩
            simp [hmask]
          | ok n =>
            have hn : ¬ ((-1 : Int) = (n : Int)) := by omega
            simp [signalfd, hfd, hn, io_src_init_sig, World.set_sigmask, World.log] at h
            obtain ⟨rfl, rfl, rfl⟩ := h
            refine Or.inr ⟨rfl, n, rfl, ?_, ?_⟩
            · simp [hmask]
            · simp [hmask]

/-- The loop of `build_sig_mask` on a list that holds a 0 and whose listed
signals are all accepted: it returns 0 with the listed signals added to the
set, after one `sigaddset` per listed signal, in order. -/
theorem build_sig_mask_loop_accepts (env : Env) :
    ∀ (args : List Int) (signo : Int) (m : sigset_t) (w : World),
      0 ∈ signo :: args →
      (∀ s ∈ listed (signo :: args), env.sigaddset_err s = none) →
      build_sig_mask_loop env m signo args w
        = some (0, m ∪ (listed (signo :: args)).toFinset,
                { proc := w.proc,
                  calls := w.calls ++ (listed (signo :: args)).map Event.sigaddset }) := by
  intro args
  induction args with
  | nil =>
    intro signo m w hz _
    have h0 : signo = 0 := by simpa [eq_comm] using hz
    subst h0
    unfold build_sig_mask_loop
    simp [listed_cons_zero]
  | cons next rest ih =>
    intro signo m w hz hacc
    unfold build_sig_mask_loop
    by_cases h0 : signo = 0
    · subst h0
      simp [listed_cons_zero]
    · have hl := listed_cons_ne signo (next :: rest) h0
      have hs : env.sigaddset_err signo = none := hacc signo (by simp [hl])
      have hz' : (0 : Int) ∈ next :: rest := by
        rcases List.mem_cons.mp hz with h | h
        · exact absurd h.symm h0
        · exact h
      have hacc' : ∀ s ∈ listed (next :: rest), env.sigaddset_err s = none := by
        intro s hs'
        exact hacc s (by simp [hl, hs'])
      simp only [h0, if_false, sigaddset, hs]
      simp only [show ¬ ((0 : Int) = -1) by decide, if_false]
      rw [ih next (insert signo m) (w.log (Event.sigaddset signo)) hz' hacc', hl]
      simp [World.log]

/-- The loop of `build_sig_mask` on a list whose first rejected signal is
`bad`, after the accepted non-zero signals `pre`: it returns the negated error
number of that rejection, after one `sigaddset` per signal of `pre` and one
for `bad`; what follows `bad` is not read. -/
theorem build_sig_mask_loop_rejects (env : Env) (bad : Int) (post : List Int) (e : ℕ+)
    (hbad : bad ≠ 0) (he : env.sigaddset_err bad = some e) :
    ∀ (pre : List Int) (signo : Int) (args : List Int) (m : sigset_t) (w : World),
      signo :: args = pre ++ bad :: post →
      (∀ s ∈ pre, s ≠ 0 ∧ env.sigaddset_err s = none) →
      build_sig_mask_loop env m signo args w
        = some (- ((e : Nat) : Int), m ∪ pre.toFinset,
                { proc := { sigmask := w.proc.sigmask, errno := ((e : Nat) : Int) },
                  calls := w.calls ++ (pre ++ [bad]).map Event.sigaddset }) := by
  intro pre
  induction pre with
  | nil =>
    intro signo args m w hva _
    simp at hva
    obtain ⟨rfl, rfl⟩ := hva
    unfold build_sig_mask_loop
    simp [hbad, sigaddset, he, World.set_errno, World.log]
  | cons p pre ih =>
    intro signo args m w hva hpre
    simp at hva
    obtain ⟨rfl, hargs⟩ := hva
    obtain ⟨hp0, hpa⟩ := hpre signo (by simp)
    have hpre' : ∀ s ∈ pre, s ≠ 0 ∧ env.sigaddset_err s = none := by
      intro s hs
      exact hpre s (by simp [hs])
    unfold build_sig_mask_loop
    simp only [hp0, if_false, sigaddset, hpa]
    simp only [show ¬ ((0 : Int) = -1) by decide, if_false]
    cases args with
    | nil =>
      exact absurd hargs (by simp)
    | cons next rest =>
      simp only
      rw [ih next rest (insert signo m) (w.log (Event.sigaddset signo)) hargs hpre']
      simp [World.log]

/-- A call of `io_src_sig_init` with a non-null slot, a non-null callback and
a list that starts with a non-zero number, holds a 0 and lists accepted
signals only, does return. When `signalfd` gives a descriptor it returns 0;
when `signalfd` fails it returns the negated error number after `sig_clean`
has run. In both cases the calls made are one `sigaddset` per listed signal
and the `signalfd`. -/
theorem io_src_sig_init_runs (env : Env) (sig : Option io_src_sig) (cb : io_sig_cb_t)
    (signo : Int) (args : List Int) (w : World)
    (hsig : sig ≠ none) (hcb : cb ≠ none) (h0 : signo ≠ 0) (hz : 0 ∈ args)
    (hacc : ∀ s ∈ listed (signo :: args), env.sigaddset_err s = none) :
    io_src_sig_init env sig cb (signo :: args) w
      = some (match env.signalfd_res with
          | Except.ok n =>
            (0,
             some { src := sig_src n, mask := (listed (signo :: args)).toFinset,
                    old_mask := w.proc.sigmask, si := List.replicate SI_SIZE 0, cb := cb },
             { proc := { sigmask := (w.proc.sigmask ∪ (listed (signo :: args)).toFinset)
                                      \ env.unblockable,
                         errno := w.proc.errno },
               calls := w.calls ++ (listed (signo :: args)).map Event.sigaddset ++
                 [Event.signalfd (-1) (listed (signo :: args)).toFinset
                    (SFD_NONBLOCK ||| SFD_CLOEXEC)] })
          | Except.error e =>
            (- ((e : Nat) : Int), some io_src_sig.zero,
             { proc := { sigmask := (w.proc.sigmask \ env.reserved) \ env.unblockable,
                         errno := ((e : Nat) : Int) },
               calls := w.calls ++ (listed (signo :: args)).map Event.sigaddset ++
                 [Event.signalfd (-1) (listed (signo :: args)).toFinset
                    (SFD_NONBLOCK ||| SFD_CLOEXEC)] })) := by
  have hv : ¬ (sig = none ∨ cb = none ∨ signo = 0) := by
    rintro (h | h | h)
    · exact hsig h
    · exact hcb h
    · exact h0 h
  have hinv : sig_init_args_are_invalid sig cb signo = 0 := by
    unfold sig_init_args_are_invalid
    exact if_neg hv
  have hb := build_sig_mask_loop_accepts env args signo ∅ w (List.mem_cons_of_mem _ hz) hacc
  have hres := accepted_sdiff_reserved env (listed (signo :: args)) hacc
  simp only [Finset.empty_union] at hb
  simp only [io_src_sig_init, hinv, build_sig_mask, sigemptyset, io_src_sig.zero, hb,
    sigprocmask_block, hres]
  cases hfd : env.signalfd_res with
  | error e =>
    simp [signalfd, hfd, sig_clean, sigprocmask_setmask, World.set_sigmask,
      World.set_errno, World.log, sigemptyset]
  | ok n =>
    have hn : ¬ ((-1 : Int) = (n : Int)) := by omega
    simp [signalfd, hfd, hn, io_src_init_sig, World.set_sigmask, World.log]

/-- A mask the kernel can hold stays one when signals are taken out of it. -/
theorem sdiff_reserved_sdiff_unblockable (env : Env) (m : sigset_t)
    (hM : Disjoint m env.unblockable) :
    (m \ env.reserved) \ env.unblockable = m \ env.reserved :=
  Finset.sdiff_eq_self_iff_disjoint.mpr (hM.mono_left Finset.sdiff_subset)

/-- C1, as the code behaves: if `io_src_sig_init` succeeds under the process
signal mask `M` (a mask the kernel can hold: none of its signals is one the
kernel never blocks) and `sig_clean` is then run on the record as the
initialisation left it, the process signal mask after the cleanup is `M`
without the signals the C library keeps for itself, hence `M` when `M` holds
none of them; this whatever the process state `w2` at the time of the
cleanup, in particular when it is the state the initialisation left. -/
theorem sig_clean_after_init_mask (env : Env) (sig : Option io_src_sig)
    (cb : io_sig_cb_t) (va : List Int) (w : World) (sig' : Option io_src_sig)
    (w' w2 : World) (hM : Disjoint w.proc.sigmask env.unblockable)
    (h : io_src_sig_init env sig cb va w = some (0, sig', w')) :
    (sig_clean env sig' w').2.proc.sigmask = w.proc.sigmask \ env.reserved ∧
    (sig_clean env sig' w2).2.proc.sigmask = w.proc.sigmask \ env.reserved ∧
    (Disjoint w.proc.sigmask env.reserved →
      (sig_clean env sig' w').2.proc.sigmask = w.proc.sigmask ∧
      (sig_clean env sig' w2).2.proc.sigmask = w.proc.sigmask) := by
  rcases io_src_sig_init_inv env sig cb va w 0 sig' w' h with ⟨hneg, -⟩ | ⟨-, n, -, hsig, -⟩
  · exact absurd hneg (by decide)
  · subst hsig
    have hcl : ∀ (r : io_src_sig) (v : World), r.old_mask = w.proc.sigmask →
        (sig_clean env (some r) v).2.proc.sigmask = w.proc.sigmask \ env.reserved := by
      intro r v hr
      simp [sig_clean, sigprocmask_setmask, World.set_sigmask, hr,
        sdiff_reserved_sdiff_unblockable env _ hM]
    refine ⟨hcl _ w' rfl, hcl _ w2 rfl, fun hres => ?_⟩
    rw [hcl _ w' rfl, hcl _ w2 rfl, Finset.sdiff_eq_self_iff_disjoint.mpr hres]
    exact ⟨rfl, rfl⟩

/-- C2, as the code behaves: a call of `io_src_sig_init` under the process
signal mask `M` (a mask the kernel can hold) that blocks the listed signals
and in which `signalfd` then fails with error number `e` returns `-e`, a
negative value, and the process signal mask on return is `M` without the
signals the C library keeps for itself, hence `M` when `M` holds none of
them. The record is left zero-filled. -/
theorem io_src_sig_init_signalfd_fails (env : Env) (sig : Option io_src_sig)
    (cb : io_sig_cb_t) (signo : Int) (args : List Int) (w : World) (e : ℕ+)
    (hsig : sig ≠ none) (hcb : cb ≠ none) (h0 : signo ≠ 0) (hz : 0 ∈ args)
    (hacc : ∀ s ∈ listed (signo :: args), env.sigaddset_err s = none)
    (hfd : env.signalfd_res = Except.error e)
    (hM : Disjoint w.proc.sigmask env.unblockable) :
    io_src_sig_init env sig cb (signo :: args) w
      = some (- ((e : Nat) : Int), some io_src_sig.zero,
              { proc := { sigmask := w.proc.sigmask \ env.reserved,
                          errno := ((e : Nat) : Int) },
                calls := w.calls ++ (listed (signo :: args)).map Event.sigaddset ++
                  [Event.signalfd (-1) (listed (signo :: args)).toFinset
                     (SFD_NONBLOCK ||| SFD_CLOEXEC)] }) ∧
    - ((e : Nat) : Int) < 0 ∧
    (Disjoint w.proc.sigmask env.reserved →
      (io_src_sig_init env sig cb (signo :: args) w).map (fun r => r.2.2.proc.sigmask)
        = some w.proc.sigmask) := by
  have hrun : io_src_sig_init env sig cb (signo :: args) w
      = some (- ((e : Nat) : Int), some io_src_sig.zero,
              { proc := { sigmask := w.proc.sigmask \ env.reserved,
                          errno := ((e : Nat) : Int) },
                calls := w.calls ++ (listed (signo :: args)).map Event.sigaddset ++
                  [Event.signalfd (-1) (listed (signo :: args)).toFinset
                     (SFD_NONBLOCK ||| SFD_CLOEXEC)] }) := by
    rw [io_src_sig_init_runs env sig cb signo args w hsig hcb h0 hz hacc, hfd]
    simp only [sdiff_reserved_sdiff_unblockable env _ hM]
  refine ⟨hrun, ?_, fun hres => ?_⟩
  · have := e.pos
    omega
  · rw [hrun]
    simp [Finset.sdiff_eq_self_iff_disjoint.mpr hres]

/-- C8, as the code behaves: after a successful `io_src_sig_init` called
under the process signal mask `M` with the listed signals `S`, the process
signal mask is `M ∪ S` without the signals the kernel never blocks, the
record's captured old mask is `M`, its active mask is `S` and its user
callback is the one passed in. -/
theorem io_src_sig_init_success (env : Env) (sig : Option io_src_sig)
    (cb : io_sig_cb_t) (va : List Int) (w : World) (sig' : Option io_src_sig)
    (w' : World) (h : io_src_sig_init env sig cb va w = some (0, sig', w')) :
    w'.proc.sigmask = (w.proc.sigmask ∪ (listed va).toFinset) \ env.unblockable ∧
    sig'.map (fun r => r.old_mask) = some w.proc.sigmask ∧
    sig'.map (fun r => r.mask) = some (listed va).toFinset ∧
    sig'.map (fun r => r.cb) = some cb := by
  rcases io_src_sig_init_inv env sig cb va w 0 sig' w' h with ⟨hneg, -⟩ | ⟨-, n, -, hsig, hm⟩
  · exact absurd hneg (by decide)
  · subst hsig
    exact ⟨hm, rfl, rfl, rfl⟩

/-- C9: with a non-null slot and a non-null callback, so that the list is
examined, if `bad` is the first listed signal that `sigaddset` rejects, with
error number `e`, after the accepted signals `pre`, then `io_src_sig_init`
returns `-e`; the process signal mask is as before; the calls made are one
`sigaddset` per signal of `pre` and one for `bad`: no `signalfd`, and nothing
of what follows `bad` in the list. -/
theorem io_src_sig_init_rejected_signal (env : Env) (sig : Option io_src_sig)
    (cb : io_sig_cb_t) (pre : List Int) (bad : Int) (post : List Int) (e : ℕ+)
    (w : World) (hsig : sig ≠ none) (hcb : cb ≠ none)
    (hpre : ∀ s ∈ pre, s ≠ 0 ∧ env.sigaddset_err s = none)
    (hbad : bad ≠ 0) (he : env.sigaddset_err bad = some e) :
    io_src_sig_init env sig cb (pre ++ bad :: post) w
      = some (- ((e : Nat) : Int),
              some { io_src_sig.zero with mask := pre.toFinset },
              { proc := { sigmask := w.proc.sigmask, errno := ((e : Nat) : Int) },
                calls := w.calls ++ (pre ++ [bad]).map Event.sigaddset }) := by
  obtain ⟨signo, args, hva⟩ : ∃ signo args, signo :: args = pre ++ bad :: post := by
    cases pre with
    | nil => exact ⟨bad, post, rfl⟩
    | cons p pre => exact ⟨p, pre ++ bad :: post, rfl⟩
  have hs0 : signo ≠ 0 := by
    cases pre with
    | nil =>
      simp at hva
      rw [hva.1]; exact hbad
    | cons p pre =>
      simp at hva
      rw [hva.1]; exact (hpre p (by simp)).1
  have hv : ¬ (sig = none ∨ cb = none ∨ signo = 0) := by
    rintro (h | h | h)
    · exact hsig h
    · exact hcb h
    · exact hs0 h
  have hinv : sig_init_args_are_invalid sig cb signo = 0 := by
    unfold sig_init_args_are_invalid
    exact if_neg hv
  have hb := build_sig_mask_loop_rejects env bad post e hbad he pre signo args ∅ w hva hpre
  have hneg : - ((e : Nat) : Int) < 0 := by
    have := e.pos
    omega
  have hgt : (0 : Int) > - ((e : Nat) : Int) := hneg
  rw [← hva]
  simp only [io_src_sig_init, hinv, build_sig_mask, sigemptyset, io_src_sig.zero, hb]
  simp [hgt]

/-- C1, a run: initialisation for the signals 10 and 12 under the mask that
blocks signal 2, then cleanup, at once or after signal 15 has been blocked
too. -/
theorem sig_clean_after_init_mask_witness :
    (Disjoint (World.start {2}).proc.sigmask (linux (Except.ok 3) (Except.ok [])).unblockable ∧
     io_src_sig_init (linux (Except.ok 3) (Except.ok [])) (some io_src_sig.zero) (some 4)
        [10, 12, 0] (World.start {2}) = some (0, some (armed 0), World.armed) ∧
     Disjoint (World.start {2}).proc.sigmask (linux (Except.ok 3) (Except.ok [])).reserved) ∧
    (sig_clean (linux (Except.ok 3) (Except.ok [])) (some (armed 0)) World.armed).2.proc.sigmask
      = (World.start {2}).proc.sigmask \ (linux (Except.ok 3) (Except.ok [])).reserved ∧
    (sig_clean (linux (Except.ok 3) (Except.ok [])) (some (armed 0))
        (World.start {2, 10, 12, 15})).2.proc.sigmask
      = (World.start {2}).proc.sigmask \ (linux (Except.ok 3) (Except.ok [])).reserved ∧
    (sig_clean (linux (Except.ok 3) (Except.ok [])) (some (armed 0))
        World.armed).2.proc.sigmask = (World.start {2}).proc.sigmask ∧
    (sig_clean (linux (Except.ok 3) (Except.ok [])) (some (armed 0))
        (World.start {2, 10, 12, 15})).2.proc.sigmask = (World.start {2}).proc.sigmask :=
  ⟨⟨by decide, by decide, by decide⟩,
   (sig_clean_after_init_mask (linux (Except.ok 3) (Except.ok []))
     (some io_src_sig.zero) (some 4) [10, 12, 0] (World.start {2}) (some (armed 0))
     World.armed (World.start {2, 10, 12, 15}) (by decide) (by decide)).1,
   (sig_clean_after_init_mask (linux (Except.ok 3) (Except.ok []))
     (some io_src_sig.zero) (some 4) [10, 12, 0] (World.start {2}) (some (armed 0))
     World.armed (World.start {2, 10, 12, 15}) (by decide) (by decide)).2.1,
   (sig_clean_after_init_mask (linux (Except.ok 3) (Except.ok []))
     (some io_src_sig.zero) (some 4) [10, 12, 0] (World.start {2}) (some (armed 0))
     World.armed (World.start {2, 10, 12, 15}) (by decide) (by decide)).2.2 (by decide)⟩

/-- C1 fails as stated: under the mask that blocks the signals 2 and 32, a
mask the kernel can hold, the initialisation for the signals 10 and 12
succeeds, and after the cleanup the process signal mask blocks signal 2 only:
the library has taken signal 32 out of the set it was asked to restore. -/
theorem sig_clean_after_init_loses_reserved :
    Disjoint (World.start {2, 32}).proc.sigmask
      (linux (Except.ok 3) (Except.ok [])).unblockable ∧
    (io_src_sig_init (linux (Except.ok 3) (Except.ok [])) (some io_src_sig.zero) (some 4)
        [10, 12, 0] (World.start {2, 32})).map
        (fun r => (r.1, (sig_clean (linux (Except.ok 3) (Except.ok [])) r.2.1
          r.2.2).2.proc.sigmask))
      = some (0, {2}) ∧
    ({2} : sigset_t) ≠ (World.start {2, 32}).proc.sigmask := by
  decide

/-- C2, a run: the signals 10 and 12 are blocked under the mask that blocks
signal 2, then `signalfd` fails with error 24 (`EMFILE`). -/
theorem io_src_sig_init_signalfd_fails_witness :
    (some (armed 0) ≠ none ∧ (some 4 : io_sig_cb_t) ≠ none ∧ (10 : Int) ≠ 0 ∧
     (0 : Int) ∈ [(12 : Int), 0] ∧
     (∀ s ∈ listed (10 :: [12, 0]),
        (linux (Except.error 24) (Except.ok [])).sigaddset_err s = none) ∧
     (linux (Except.error 24) (Except.ok [])).signalfd_res = Except.error 24 ∧
     Disjoint (World.start {2}).proc.sigmask
        (linux (Except.error 24) (Except.ok [])).unblockable ∧
     Disjoint (World.start {2}).proc.sigmask
        (linux (Except.error 24) (Except.ok [])).reserved) ∧
    io_src_sig_init (linux (Except.error 24) (Except.ok [])) (some (armed 0)) (some 4)
        (10 :: [12, 0]) (World.start {2})
      = some (- (((24 : ℕ+) : Nat) : Int), some io_src_sig.zero,
              { proc := { sigmask := (World.start {2}).proc.sigmask
                            \ (linux (Except.error 24) (Except.ok [])).reserved,
                          errno := (((24 : ℕ+) : Nat) : Int) },
                calls := (World.start {2}).calls ++
                  (listed (10 :: [12, 0])).map Event.sigaddset ++
                  [Event.signalfd (-1) (listed (10 :: [12, 0])).toFinset
                     (SFD_NONBLOCK ||| SFD_CLOEXEC)] }) ∧
    - (((24 : ℕ+) : Nat) : Int) < 0 ∧
    (io_src_sig_init (linux (Except.error 24) (Except.ok [])) (some (armed 0)) (some 4)
        (10 :: [12, 0]) (World.start {2})).map (fun r => r.2.2.proc.sigmask)
      = some (World.start {2}).proc.sigmask :=
  ⟨⟨by decide, by decide, by decide, by decide, by decide, rfl, by decide, by decide⟩,
   (io_src_sig_init_signalfd_fails (linux (Except.error 24) (Except.ok []))
     (some (armed 0)) (some 4) 10 [12, 0] (World.start {2}) 24
     (by decide) (by decide) (by decide) (by decide) (by decide) rfl (by decide)).1,
   (io_src_sig_init_signalfd_fails (linux (Except.error 24) (Except.ok []))
     (some (armed 0)) (some 4) 10 [12, 0] (World.start {2}) 24
     (by decide) (by decide) (by decide) (by decide) (by decide) rfl (by decide)).2.1,
   (io_src_sig_init_signalfd_fails (linux (Except.error 24) (Except.ok []))
     (some (armed 0)) (some 4) 10 [12, 0] (World.start {2}) 24
     (by decide) (by decide) (by decide) (by decide) (by decide) rfl (by decide)).2.2
     (by decide)⟩

/-- C2 fails as stated: under the mask that blocks the signals 2 and 32, a
mask the kernel can hold, the signals 10 and 12 are blocked, `signalfd` fails
with error 24 and `io_src_sig_init` returns -24 with a process signal mask
that blocks signal 2 only, not the mask in force before the call. The run
ends as `World.unwound` does. -/
theorem io_src_sig_init_signalfd_fails_loses_reserved :
    Disjoint (World.start {2, 32}).proc.sigmask
      (linux (Except.error 24) (Except.ok [])).unblockable ∧
    io_src_sig_init (linux (Except.error 24) (Except.ok [])) (some (armed 0)) (some 4)
        [10, 12, 0] (World.start {2, 32})
      = some (-24, some io_src_sig.zero, World.unwound) ∧
    World.unwound.proc.sigmask = {2} ∧
    World.unwound.proc.sigmask ≠ (World.start {2, 32}).proc.sigmask := by
  decide

/-- C8 fails as stated: a call for signal 9 (`SIGKILL`) under the mask that
blocks signal 2 succeeds and leaves the mask that blocks signal 2 only, which
is not the union of that mask and the listed signals. -/
theorem io_src_sig_init_sigkill_stays_unblocked :
    (io_src_sig_init (linux (Except.ok 3) (Except.ok [])) (some io_src_sig.zero) (some 4)
        [9, 0] (World.start {2})).map (fun r => (r.1, r.2.2.proc.sigmask))
      = some (0, {2}) ∧
    ({2} : sigset_t) ≠ (World.start {2}).proc.sigmask ∪ (listed [9, 0]).toFinset := by
  decide

/-- C8, a run: the signals 10 and 12 under the mask that blocks signal 2. -/
theorem io_src_sig_init_success_witness :
    io_src_sig_init (linux (Except.ok 3) (Except.ok [])) (some io_src_sig.zero) (some 4)
        [10, 12, 0] (World.start {2}) = some (0, some (armed 0), World.armed) ∧
    (World.armed.proc.sigmask
        = ((World.start {2}).proc.sigmask ∪ (listed [10, 12, 0]).toFinset)
            \ (linux (Except.ok 3) (Except.ok [])).unblockable ∧
     (some (armed 0)).map (fun r => r.old_mask) = some (World.start {2}).proc.sigmask ∧
     (some (armed 0)).map (fun r => r.mask) = some (listed [10, 12, 0]).toFinset ∧
     (some (armed 0)).map (fun r => r.cb) = some (some 4)) :=
  ⟨by decide,
   io_src_sig_init_success (linux (Except.ok 3) (Except.ok [])) (some io_src_sig.zero)
     (some 4) [10, 12, 0] (World.start {2}) (some (armed 0)) World.armed (by decide)⟩

/-- C9, a run: the list 10, 70, 12, 0, in which 70 is not a signal number. -/
theorem io_src_sig_init_rejected_signal_witness :
    ((some io_src_sig.zero ≠ none ∧ (some 4 : io_sig_cb_t) ≠ none ∧
      (∀ s ∈ [(10 : Int)],
        s ≠ 0 ∧ (linux (Except.ok 3) (Except.ok [])).sigaddset_err s = none) ∧
      (70 : Int) ≠ 0 ∧
      (linux (Except.ok 3) (Except.ok [])).sigaddset_err 70 = some 22)) ∧
    io_src_sig_init (linux (Except.ok 3) (Except.ok [])) (some io_src_sig.zero) (some 4)
        ([10] ++ 70 :: [12, 0]) (World.start {2})
      = some (-22, some { io_src_sig.zero with mask := {10} },
              { proc := { sigmask := {2}, errno := 22 },
                calls := [Event.sigaddset 10, Event.sigaddset 70] }) :=
  ⟨⟨by decide, by decide, by decide, by decide, by decide⟩,
   io_src_sig_init_rejected_signal (linux (Except.ok 3) (Except.ok []))
     (some io_src_sig.zero) (some 4) [10] 70 [12, 0] 22 (World.start {2})
     (by decide) (by decide) (by decide) (by decide) (by decide)⟩

/-! ## Invalid arguments of `pidwatch_create` -/

/-- C10: `pidwatch_create` returns -1 for every pid that is not a valid
process identifier (a negative pid, a pid equal to `pid_max`) and for every
flags value that has a bit set outside `SOCK_CLOEXEC | SOCK_NONBLOCK`. -/
theorem pidwatch_create_invalid_args (env : PwEnv) (pid : Int) (flags : Int)
    (h : is_pid_valid env.pid_max pid = false ∨
      (is_pid_valid env.pid_max pid = true ∧ flags_out_of_set flags = true)) :
    (pidwatch_create env pid flags).1 = -1 := by
  unfold pidwatch_create
  rcases h with h | ⟨-, h⟩
  · by_cases hf : flags_out_of_set flags = true
    · simp [hf]
    · simp [hf, h]
  · simp [h]

/-- C10, a run: the three calls of the test, pid -63, pid `pid_max` and pid 1
with the flags `~(SOCK_CLOEXEC | SOCK_NONBLOCK)`. -/
theorem pidwatch_create_invalid_args_witness :
    ((is_pid_valid pw_linux.pid_max (-63) = false ∨
        (is_pid_valid pw_linux.pid_max (-63) = true ∧
          flags_out_of_set (SOCK_CLOEXEC : Int) = true)) ∧
     (is_pid_valid pw_linux.pid_max pw_linux.pid_max = false ∨
        (is_pid_valid pw_linux.pid_max pw_linux.pid_max = true ∧
          flags_out_of_set (SOCK_CLOEXEC : Int) = true)) ∧
     (is_pid_valid pw_linux.pid_max 1 = false ∨
        (is_pid_valid pw_linux.pid_max 1 = true ∧
          flags_out_of_set (-1 - ((SOCK_CLOEXEC ||| SOCK_NONBLOCK : Nat) : Int)) = true))) ∧
    (pidwatch_create pw_linux (-63) (SOCK_CLOEXEC : Int)).1 = -1 ∧
    (pidwatch_create pw_linux pw_linux.pid_max (SOCK_CLOEXEC : Int)).1 = -1 ∧
    (pidwatch_create pw_linux 1 (-1 - ((SOCK_CLOEXEC ||| SOCK_NONBLOCK : Nat) : Int))).1 = -1 :=
  ⟨⟨by decide, by decide, by decide⟩,
   pidwatch_create_invalid_args pw_linux (-63) (SOCK_CLOEXEC : Int) (by decide),
   pidwatch_create_invalid_args pw_linux pw_linux.pid_max (SOCK_CLOEXEC : Int) (by decide),
   pidwatch_create_invalid_args pw_linux 1
     (-1 - ((SOCK_CLOEXEC ||| SOCK_NONBLOCK : Nat) : Int)) (by decide)⟩

/-! ## What `sig_clean` clears -/

/-- C11, as the code behaves: after `sig_clean` has run on a signal-source
record, the fields of the signal source proper are cleared, the active signal
set and the captured signal set are empty, the stored signal-info record is
all zero and the user callback is null, while the embedded source record (fd,
interest, events, callbacks, list node) is as it was before the call. -/
theorem sig_clean_clears_signal_fields (env : Env) (sig : io_src_sig) (w : World) :
    (sig_clean env (some sig) w).1
      = some { src := sig.src, mask := ∅, old_mask := ∅,
               si := List.replicate SI_SIZE 0, cb := none } := by
  simp [sig_clean, sigprocmask_setmask, sigemptyset]

/-- C11 fails as stated: after `sig_clean` has run on an initialised source
on descriptor 3, the embedded source record is still the initialised one, with
its descriptor, its interest and its callbacks, and not a zeroed one. -/
theorem sig_clean_keeps_embedded_source :
    (sig_clean (linux (Except.ok 3) (Except.ok [])) (some (armed 1)) World.armed).1.map
        (fun r => r.src) = some (armed 1).src ∧
    (armed 1).src ≠ io_src.zero ∧
    (armed 1).src.fd = 3 := by
  decide

end Fusion
